import Mathlib

/-!
Verification development for the Growatt solar dashboard backend
(`server.js`, embedded in the repository README).

The development shallowly embeds the server's session / cache /
normalization logic:

* `JVal` models the loosely-typed JSON values flowing from the vendor API,
  together with JavaScript truthiness (`truthy`) and the `a || b` idiom
  (`truthyOr`).
* `parseFloatStr` / `jsParseFloat` model JavaScript's `parseFloat` on the
  values that occur in the program (strings, numbers, objects, `null`,
  `undefined`); `parseIntStr` / `jsParseInt` model `parseInt` likewise
  (the `0x` radix prefix and `Infinity` literals are not modelled — no
  vendor field uses them).
* `pf` is the server's first-non-zero numeric coalesce helper.
* `Session`, `loginE`, `ensureSessionE`, `withSessionRetry`,
  `getStorageDataE`, `getPlantDetailE`, `buildDash`, `apiData` embed the
  session manager, the retry wrapper, and the `/api/data` handler; network
  outcomes are supplied by an explicit environment (`Env`, `LoginEnv`).
* `md5Hex` / `growattHash` embed the vendor's modified-MD5 credential hash
  (`md5Hex` is the standard RFC 1321 algorithm, modelling Node's
  `crypto.createHash('md5')`).
* `JarState` / `runOps` embed the cookie-jar state machine used for the
  session invariant.
-/

/-- Loosely-typed JSON-ish value as handled by the server.  `jmissing`
stands for JavaScript `undefined` (absent field). -/
inductive JVal where
  | jnull : JVal
  | jbool : Bool → JVal
  | jnum : Rat → JVal
  | jstr : String → JVal
  | jobj : List (String × JVal) → JVal
  | jmissing : JVal

/-- Property access `o.k`: yields the field value on objects, `undefined`
otherwise (the server only dereferences parsed JSON objects, guarded with
`?.` or `||` where needed). -/
def jget : JVal → String → JVal
  | .jobj fields, k =>
    match fields.find? (fun p => p.1 == k) with
    | some p => p.2
    | none => .jmissing
  | _, _ => .jmissing

/-- JavaScript truthiness of a `JVal`: objects (even empty) are truthy,
`0`, `""`, `null`, `undefined` and `false` are falsy. -/
def truthy : JVal → Bool
  | .jnull => false
  | .jbool b => b
  | .jnum q => decide (q ≠ 0)
  | .jstr s => decide (s ≠ "")
  | .jobj _ => true
  | .jmissing => false

/-- The JavaScript `a || b` idiom on `JVal`s. -/
def truthyOr (a b : JVal) : JVal := if truthy a then a else b

/-- Whitespace skipped by `parseFloat` / `parseInt` (the common cases). -/
def isWs (c : Char) : Bool := c = ' ' || c = '\t' || c = '\n' || c = '\r'

/-- Numeric value of a decimal digit character. -/
def digitVal (c : Char) : Nat := c.toNat - '0'.toNat

/-- Split a character list into its leading run of decimal digits and the
rest. -/
def takeDigits : List Char → List Char × List Char
  | [] => ([], [])
  | c :: cs =>
    if c.isDigit then
      let (d, r) := takeDigits cs
      (c :: d, r)
    else ([], c :: cs)

/-- Value of a list of decimal digits. -/
def digitsToNat (l : List Char) : Nat :=
  l.foldl (fun a c => 10 * a + digitVal c) 0

/-- Exponent part after the `e`/`E` marker: optional sign then digits; a
malformed exponent is ignored (contributes 0), as `parseFloat` only
consumes the longest valid numeric prefix. -/
def expTail (l : List Char) : Int :=
  match l with
  | '-' :: r =>
    let (d, _) := takeDigits r
    if d = [] then 0 else -(digitsToNat d : Int)
  | '+' :: r =>
    let (d, _) := takeDigits r
    if d = [] then 0 else (digitsToNat d : Int)
  | r =>
    let (d, _) := takeDigits r
    if d = [] then 0 else (digitsToNat d : Int)

/-- Exponent of the numeric literal prefix, 0 when absent. -/
def expVal (l : List Char) : Int :=
  match l with
  | 'e' :: rest => expTail rest
  | 'E' :: rest => expTail rest
  | _ => 0

/-- Mantissa of a decimal literal: digits, optional `.` and more digits;
at least one digit is required overall.  Returns the mantissa scaled to an
integer, the number of fraction digits, and the remaining characters. -/
def mantissa (l : List Char) : Option (Nat × Nat × List Char) :=
  let (ip, r1) := takeDigits l
  match r1 with
  | '.' :: r2 =>
    let (fp, r3) := takeDigits r2
    if ip = [] ∧ fp = [] then none
    else some (digitsToNat ip * 10 ^ fp.length + digitsToNat fp, fp.length, r3)
  | _ => if ip = [] then none else some (digitsToNat ip, 0, r1)

/-- Model of JavaScript `parseFloat` on a string: skip whitespace,
optional sign, longest valid decimal-literal prefix; `none` is NaN.
The rational value is assembled with a single `mkRat` from integer
mantissa, fraction length and exponent. -/
def parseFloatStr (s : String) : Option Rat :=
  let l := s.data.dropWhile isWs
  let sl : Bool × List Char :=
    match l with
    | '-' :: r => (true, r)
    | '+' :: r => (false, r)
    | r => (false, r)
  match mantissa sl.2 with
  | none => none
  | some (m, fl, rest) =>
    let e := expVal rest
    let num : Int := if sl.1 then -(m : Int) else (m : Int)
    if 0 ≤ e then some (mkRat (num * (10 : Int) ^ e.toNat) (10 ^ fl))
    else some (mkRat num (10 ^ fl * 10 ^ (-e).toNat))

/-- Model of `parseFloat(v)` for the value shapes the server feeds it:
numbers parse to themselves, strings via `parseFloatStr`, everything else
(objects, `null`, `undefined`, booleans) is NaN (`none`). -/
def jsParseFloat : JVal → Option Rat
  | .jnum q => some q
  | .jstr s => parseFloatStr s
  | _ => none

/-- Model of JavaScript `parseInt` (radix-10 prefix) on a string. -/
def parseIntStr (s : String) : Option Int :=
  let l := s.data.dropWhile isWs
  match l with
  | '-' :: r =>
    let (d, _) := takeDigits r
    if d = [] then none else some (-(digitsToNat d : Int))
  | '+' :: r =>
    let (d, _) := takeDigits r
    if d = [] then none else some (digitsToNat d : Int)
  | r =>
    let (d, _) := takeDigits r
    if d = [] then none else some (digitsToNat d : Int)

/-- Model of `parseInt(v)` on a `JVal` (numbers are stringified by
JavaScript first, which truncates toward zero for plain decimals). -/
def jsParseInt : JVal → Option Int
  | .jnum q => some (if 0 ≤ q then ⌊q⌋ else ⌈q⌉)
  | .jstr s => parseIntStr s
  | _ => none

/-- The server's numeric coalesce helper (`server.js` `pf`): return the
first candidate that parses to a non-zero float, else 0. -/
def pf : List JVal → Rat
  | [] => 0
  | v :: rest =>
    match jsParseFloat v with
    | some n => if n ≠ 0 then n else pf rest
    | none => pf rest

/-- A candidate parses to a non-zero float. -/
def ParsesNonZero (v : JVal) : Prop := ∃ n, jsParseFloat v = some n ∧ n ≠ 0

instance (v : JVal) : Decidable (ParsesNonZero v) := by
  unfold ParsesNonZero
  cases h : jsParseFloat v with
  | none => exact .isFalse (by simp [h])
  | some n => exact decidable_of_iff (n ≠ 0) (by simp [h])

example : pf [.jnum 0, .jstr "", .jstr "12.5", .jstr "7"] = mkRat 25 2 := by decide

example : pf [.jnum 0, .jstr "", .jnum 0] = 0 := by decide

/-- Does `needle` occur at the start of `hay`? -/
def listStarts : List Char → List Char → Bool
  | [], _ => true
  | _ :: _, [] => false
  | n :: ns, h :: hs => n == h && listStarts ns hs

/-- Does `needle` occur anywhere in `hay`? -/
def listHasRun (needle : List Char) : List Char → Bool
  | [] => listStarts needle []
  | h :: hs => listStarts needle (h :: hs) || listHasRun needle hs

/-- Model of JavaScript `hay.includes(needle)`. -/
def strIncludes (hay needle : String) : Bool := listHasRun needle.data hay.data

/-- Session TTL: 30 minutes in milliseconds (`SESSION_TTL`). -/
def SESSION_TTL : Nat := 30 * 60 * 1000

/-- Data cache TTL: 60 seconds in milliseconds (`DATA_CACHE_TTL`). -/
def DATA_CACHE_TTL : Nat := 60 * 1000

/-- The normalized dashboard snapshot built by the `/api/data` handler
(`dashData` in `server.js`), flattened: `plantCurrentPower` is
`plant.currentPower`, `batSoc` is `battery.soc`, and so on.  The `_raw`
debugging echo is not modelled.  Numeric telemetry fields are rationals;
the string-valued fields selected by `||` chains are kept as `JVal`
(their JavaScript `String()` coercion is not modelled — no claim reads
them). -/
structure DashData where
  timestamp : Nat
  plantName : Option String
  plantId : Option String
  plantCurrentPower : Rat
  plantTodayEnergy : Rat
  plantMonthEnergy : Rat
  plantTotalEnergy : Rat
  pvPower : Rat
  pvPowerStr2 : Rat
  pvVoltage : Rat
  pvCurrent : Rat
  pvTodayEnergy : Rat
  pvTotalEnergy : Rat
  batSoc : Rat
  batVoltage : Rat
  batChargePower : Rat
  batDischargePower : Rat
  batDischargeCurrent : Rat
  batChargeToday : Rat
  batDischargeToday : Rat
  batTemperature : Rat
  loadPower : Rat
  loadCurrent : Rat
  loadVoltage : Rat
  loadFrequency : Rat
  loadTodayEnergy : Rat
  loadPercent : Rat
  gridPower : Rat
  gridVoltage : Rat
  gridFrequency : Rat
  gridImportToday : Rat
  gridExportToday : Rat
  gridStatus : String
  invStatus : JVal
  invStatusCode : Int
  invTemperature : Rat
  invDcDcTemperature : Rat
  invModel : JVal
  invSerial : Option String
  invAlias : JVal
  invFirmware : JVal
  energyPvToday : Rat
  energyPvTotal : Rat
  energyConsumptionToday : Rat
  energyConsumptionTotal : Rat
  energyGridImportToday : Rat
  energyGridImportTotal : Rat
  energyGridExportToday : Rat
  energyGridExportTotal : Rat
  energyBatteryChargeToday : Rat
  energyBatteryDischargeToday : Rat
  energyAcChargeToday : Rat
  energyAcDischargeToday : Rat

/-- The process-wide `session` object of `server.js`.  `none` models
JavaScript `null`; the code never stores an empty cookie string (the jar
render falls back to `null`), so `Option` truthiness is faithful. -/
structure Session where
  cookies : Option String
  userId : Option String
  plantId : Option String
  plantName : Option String
  deviceSn : Option String
  lastLogin : Option Nat
  lastData : Option DashData
  lastFetch : Nat

/-- Result of `getStorageData`: the three per-device upstream payloads
(`energy` already unwrapped through `energyData.obj || energyData`). -/
structure StorageRaw where
  detail : JVal
  energy : JVal
  params : JVal

/-- Identifiers extracted from a successful login response
(`data.back.user.id`, first plant's id and name). -/
structure LoginIds where
  userId : String
  plantId : String
  plantName : String

/-- Environment feeding one `login()` call: whether credentials are
configured, the net effect of `captureCookies` on the login response, the
parse/validation outcome, and the device-discovery outcome (`some sn` =
a device was found; `none` = zero devices, which leaves `deviceSn`
untouched). -/
structure LoginEnv where
  configured : Bool
  captured : Option String
  result : Except String LoginIds
  discovery : Except String (Option String)

/-- Environment feeding one `/api/data` pipeline run: outcome of each
upstream fetch-and-parse (`growattFetch` + `safeJson`), assumed stable
across a retry of the same request. -/
structure Env where
  login : LoginEnv
  detail : Except String JVal
  energy : Except String JVal
  params : Except String JVal
  plant : Except String JVal

/-- Model of `safeJson(res, label)` from `server.js`: `body` is the response
text, `parsed` the outcome of the strict `JSON.parse(text)` (a library
call, supplied as a parameter): on success return the value; on failure
throw `` `${label} returned non-JSON: "${text.substring(0, 80)}"` ``. -/
def safeJson (label : String) (body : String) (parsed : Option JVal) : Except String JVal :=
  match parsed with
  | some v => .ok v
  | none => .error (label ++ " returned non-JSON: \"" ++ body.take 80 ++ "\"")

/-- Model of `login()` from `server.js` as a state transformer: fail fast without
credentials; clear cookies and jar, then capture the login response's
cookies (collapsed into `e.captured`); on a bad envelope fail; on success
populate the identifiers, stamp `lastLogin := now`, and run device
discovery (whose failure propagates after `lastLogin` is already set).
Returns the updated session even on failure, mirroring the partial
mutation of the shared object. -/
def loginE (s : Session) (now : Nat) (e : LoginEnv) : Session × Except String Unit :=
  if ¬ e.configured then
    (s, .error "GROWATT_USERNAME and GROWATT_PASSWORD must be set in .env")
  else
    let s1 := { s with cookies := e.captured }
    match e.result with
    | .error msg => (s1, .error msg)
    | .ok ids =>
      let s2 := { s1 with userId := some ids.userId, plantId := some ids.plantId,
                          plantName := some ids.plantName, lastLogin := some now }
      match e.discovery with
      | .error msg => (s2, .error msg)
      | .ok snFound =>
        match snFound with
        | some sn => ({ s2 with deviceSn := some sn }, .ok ())
        | none => (s2, .ok ())

/-- The re-login guard of `ensureSession()`: true iff cookies are absent,
or no login timestamp exists, or the session is older than `SESSION_TTL`
(the `Nat` truncated subtraction agrees with the JavaScript signed
subtraction since a "future" `lastLogin` makes both sides of the `>`
comparison fail). -/
def needsLogin (s : Session) (now : Nat) : Bool :=
  match s.cookies, s.lastLogin with
  | none, _ => true
  | _, none => true
  | some _, some t => decide (now - t > SESSION_TTL)

/-- Model of `ensureSession()` as a state transformer; the middle component
counts the `login()` calls performed (0 or 1). -/
def ensureSessionE (s : Session) (now : Nat) (e : LoginEnv) :
    Session × Nat × Except String Unit :=
  if needsLogin s now then
    let (s1, r) := loginE s now e
    (s1, 1, r)
  else (s, 0, .ok ())

/-- Model of `withSessionRetry(fn)` from `server.js`: run the operation; if it
fails with a message containing `non-JSON` (the session-expired kind),
clear `lastLogin`, re-establish the session via `ensureSession`, and run
the operation exactly once more; any other failure propagates.  `fn` is
indexed by the invocation number so a claim can model an operation whose
outcome differs between the attempts; the final component counts the
invocations of `fn`. -/
def withSessionRetry (fn : Nat → Session → Except String α) (s : Session) (now : Nat)
    (e : LoginEnv) : Except String α × Session × Nat :=
  match fn 0 s with
  | .ok a => (.ok a, s, 1)
  | .error msg =>
    if strIncludes msg "non-JSON" then
      let s1 := { s with lastLogin := none }
      match ensureSessionE s1 now e with
      | (s2, _, .error le) => (.error le, s2, 1)
      | (s2, _, .ok _) => (fn 1 s2, s2, 2)
    else (.error msg, s, 1)

/-- Model of `getStorageData()` from `server.js`: require a discovered device,
then fetch storage detail, energy overview and storage params in order —
the first failure aborts the whole call — and unwrap the energy payload
through `energyData.obj || energyData`. -/
def getStorageDataE (s : Session) (env : Env) : Except String StorageRaw :=
  match s.deviceSn with
  | none => .error "No device discovered. Try reconnecting."
  | some _ =>
    match env.detail with
    | .error msg => .error msg
    | .ok detailData =>
      match env.energy with
      | .error msg => .error msg
      | .ok energyData =>
        match env.params with
        | .error msg => .error msg
        | .ok paramsData =>
          .ok { detail := detailData,
                energy := truthyOr (jget energyData "obj") energyData,
                params := paramsData }

/-- Model of `getPlantDetail()` from `server.js`: fetch the plant-detail payload
and return `raw.back || {}`. -/
def getPlantDetailE (env : Env) : Except String JVal :=
  match env.plant with
  | .error msg => .error msg
  | .ok raw => .ok (truthyOr (jget raw "back") (.jobj []))

/-- The normalization step of the `/api/data` handler (`server.js` lines
building `dashData`): unwrap the raw per-source objects
(`sd`, `energy`, `paramsRoot`, `bean`, `storageBean`) and map their
fields into the fixed output schema with the `pf` coalesce.
`plantDetail.plantData` is computed by the handler but feeds no output
field. -/
def buildDash (s : Session) (now : Nat) (storageRaw : StorageRaw) (plantDetail : JVal) :
    DashData :=
  let sd := truthyOr (jget storageRaw.detail "obj") (truthyOr storageRaw.detail (.jobj []))
  let energy := truthyOr storageRaw.energy (.jobj [])
  let paramsRoot := truthyOr (jget storageRaw.params "obj") (truthyOr storageRaw.params (.jobj []))
  let bean := truthyOr (jget paramsRoot "storageDetailBean") (.jobj [])
  let storageBean := truthyOr (jget paramsRoot "storageBean") (.jobj [])
  let _plantData := truthyOr (jget plantDetail "plantData") (.jobj [])
  let isOffGrid :=
    (match jsParseFloat (jget bean "vac") with
      | some n => decide (n < 50)
      | none => false)
    && (match jsParseFloat (jget sd "vGrid") with
      | some n => decide (n > 0)
      | none => false)
  { timestamp := now
    plantName := s.plantName
    plantId := s.plantId
    plantCurrentPower := pf [jget sd "activePower", jget sd "outPutPower", jget bean "outPutPower"]
    plantTodayEnergy := pf [jget sd "epvToday", jget energy "epvToday"]
    plantMonthEnergy := 0
    plantTotalEnergy := pf [jget sd "epvTotal", jget energy "epvTotal"]
    pvPower := pf [jget sd "pCharge1", jget bean "ppv"]
    pvPowerStr2 := pf [jget sd "pCharge2", jget bean "ppv2"]
    pvVoltage := pf [jget sd "vpv1", jget bean "vpv"]
    pvCurrent := pf [jget sd "iChargePV1", jget bean "iChargePV1"]
    pvTodayEnergy := pf [jget sd "epvToday", jget energy "epvToday"]
    pvTotalEnergy := pf [jget sd "epvTotal", jget energy "epvTotal"]
    batSoc := pf [jget sd "capacity", jget bean "capacity"]
    batVoltage := pf [jget sd "vbat", jget bean "vBat"]
    batChargePower := pf [jget sd "pCharge1", jget bean "pCharge"]
    batDischargePower := pf [jget bean "pDischarge", jget bean "pBat"]
    batDischargeCurrent := pf [jget bean "dischgCurr"]
    batChargeToday := pf [jget sd "eBatChargeToday", jget energy "eChargeToday"]
    batDischargeToday := pf [jget sd "eBatDisChargeToday", jget energy "eDischargeToday"]
    batTemperature := pf [jget bean "batTemp", jget bean "bmsTemperature"]
    loadPower := pf [jget sd "outPutPower", jget bean "outPutPower", jget bean "sysOut"]
    loadCurrent := pf [jget bean "outPutCurrent"]
    loadVoltage := pf [jget sd "outPutVolt", jget bean "outPutVolt"]
    loadFrequency := pf [jget sd "freqOutPut", jget bean "freqOutPut"]
    loadTodayEnergy := pf [jget energy "useEnergyToday", jget energy "eToUserToday"]
    loadPercent := pf [jget sd "loadPercent", jget bean "loadPercent"]
    gridPower := pf [jget bean "pAcInPut", jget sd "pacToGrid"]
    gridVoltage := pf [jget sd "vGrid", jget bean "vGrid"]
    gridFrequency := pf [jget sd "freqGrid", jget bean "freqGrid"]
    gridImportToday := pf [jget energy "eToUserToday"]
    gridExportToday := pf [jget energy "eToGridToday"]
    gridStatus := if isOffGrid then "off-grid" else "connected"
    invStatus := truthyOr (jget bean "SPF5000StatusText") (truthyOr (jget bean "statusText")
      (truthyOr (jget bean "status") (truthyOr (jget sd "status") (.jstr ""))))
    invStatusCode :=
      (match jsParseInt (jget bean "status") with
        | some n => if n ≠ 0 then some n else none
        | none => none).getD
      ((match jsParseInt (jget sd "status") with
        | some n => if n ≠ 0 then some n else none
        | none => none).getD 0)
    invTemperature := pf [jget bean "invTemperature"]
    invDcDcTemperature := pf [jget bean "dcDcTemperature"]
    invModel := truthyOr (jget paramsRoot "storageType")
      (truthyOr (jget storageBean "modelText") (.jstr "SPF 5000ES"))
    invSerial := s.deviceSn
    invAlias := truthyOr (jget storageBean "alias") (truthyOr (jget storageBean "treeName") (.jstr ""))
    invFirmware := truthyOr (jget storageBean "fwVersion") (.jstr "")
    energyPvToday := pf [jget sd "epvToday", jget energy "epvToday"]
    energyPvTotal := pf [jget sd "epvTotal", jget energy "epvTotal"]
    energyConsumptionToday := pf [jget energy "useEnergyToday"]
    energyConsumptionTotal := pf [jget energy "useEnergyTotal"]
    energyGridImportToday := pf [jget energy "eToUserToday"]
    energyGridImportTotal := pf [jget energy "eToUserTotal"]
    energyGridExportToday := pf [jget energy "eToGridToday"]
    energyGridExportTotal := pf [jget energy "eToGridTotal"]
    energyBatteryChargeToday := pf [jget energy "eChargeToday"]
    energyBatteryDischargeToday := pf [jget energy "eDischargeToday"]
    energyAcChargeToday := pf [jget bean "eacChargeToday"]
    energyAcDischargeToday := pf [jget bean "eacDisChargeToday"] }

/-- What the `/api/data` endpoint sends back: a success payload with the
`cached` flag and the snapshot, or `{success:false, error}`. -/
inductive ApiResponse where
  | ok : Bool → DashData → ApiResponse
  | err : String → ApiResponse

/-- Outcome of one `/api/data` request: response, resulting session
state, and the number of upstream operations initiated (login attempts
plus data-operation invocations) — 0 exactly when the cache was served. -/
structure ApiOut where
  resp : ApiResponse
  ses : Session
  calls : Nat

/-- The cache-miss path of the `/api/data` handler: `ensureSession`,
storage and plant-detail fetches each wrapped in its own try/catch around
a `withSessionRetry`, normalization, cache store; the surrounding catch
converts a thrown error into `{success:false, error}` and clears
`lastLogin` when the message mentions `Login` or `session`. -/
def apiDataPipeline (s : Session) (now : Nat) (env : Env) : ApiOut :=
  match ensureSessionE s now env.login with
  | (s1, lc, .error msg) =>
    let s2 := if strIncludes msg "Login" || strIncludes msg "session" then
        { s1 with lastLogin := none }
      else s1
    { resp := .err msg, ses := s2, calls := lc }
  | (s1, lc, .ok _) =>
    let (storageRes, s2, c2) := withSessionRetry (fun _ ss => getStorageDataE ss env) s1 now env.login
    let storageRaw : StorageRaw :=
      match storageRes with
      | .ok r => r
      | .error _ => { detail := .jobj [], energy := .jobj [], params := .jobj [] }
    let (plantRes, s3, c3) := withSessionRetry (fun _ _ => getPlantDetailE env) s2 now env.login
    let plantDetail : JVal :=
      match plantRes with
      | .ok p => p
      | .error msg => .jobj [("error", .jstr msg)]
    let d := buildDash s3 now storageRaw plantDetail
    { resp := .ok false d,
      ses := { s3 with lastData := some d, lastFetch := now },
      calls := lc + c2 + c3 }

/-- The `/api/data` handler: serve the stored snapshot as `cached:true`
when it is younger than `DATA_CACHE_TTL`, otherwise run the pipeline. -/
def apiData (s : Session) (now : Nat) (env : Env) : ApiOut :=
  match s.lastData with
  | some d0 =>
    if now - s.lastFetch < DATA_CACHE_TTL then
      { resp := .ok true d0, ses := s, calls := 0 }
    else apiDataPipeline s now env
  | none => apiDataPipeline s now env

/-- 2^32, the word modulus of MD5. -/
def M32 : Nat := 4294967296

/-- Addition modulo 2^32. -/
def add32 (a b : Nat) : Nat := (a + b) % M32

/-- Bitwise complement on 32-bit words (xor with the all-ones mask). -/
def not32 (x : Nat) : Nat := Nat.xor x (M32 - 1)

/-- Left rotation of a 32-bit word. -/
def rotl32 (x n : Nat) : Nat := ((x <<< n) % M32) ||| (x >>> (32 - n))

/-- UTF-8 encoding of one character (the `'utf8'` encoding given to
`crypto.createHash('md5').update`). -/
def utf8Bytes (c : Char) : List Nat :=
  let n := c.toNat
  if n < 0x80 then [n]
  else if n < 0x800 then [0xC0 ||| (n >>> 6), 0x80 ||| (n &&& 0x3F)]
  else if n < 0x10000 then
    [0xE0 ||| (n >>> 12), 0x80 ||| ((n >>> 6) &&& 0x3F), 0x80 ||| (n &&& 0x3F)]
  else
    [0xF0 ||| (n >>> 18), 0x80 ||| ((n >>> 12) &&& 0x3F),
     0x80 ||| ((n >>> 6) &&& 0x3F), 0x80 ||| (n &&& 0x3F)]

/-- UTF-8 bytes of a string. -/
def strBytes (s : String) : List Nat := s.data.flatMap utf8Bytes

/-- MD5 sine-derived round constants (RFC 1321). -/
def md5K : List Nat :=
  [0xd76aa478, 0xe8c7b756, 0x242070db, 0xc1bdceee,
   0xf57c0faf, 0x4787c62a, 0xa8304613, 0xfd469501,
   0x698098d8, 0x8b44f7af, 0xffff5bb1, 0x895cd7be,
   0x6b901122, 0xfd987193, 0xa679438e, 0x49b40821,
   0xf61e2562, 0xc040b340, 0x265e5a51, 0xe9b6c7aa,
   0xd62f105d, 0x02441453, 0xd8a1e681, 0xe7d3fbc8,
   0x21e1cde6, 0xc33707d6, 0xf4d50d87, 0x455a14ed,
   0xa9e3e905, 0xfcefa3f8, 0x676f02d9, 0x8d2a4c8a,
   0xfffa3942, 0x8771f681, 0x6d9d6122, 0xfde5380c,
   0xa4beea44, 0x4bdecfa9, 0xf6bb4b60, 0xbebfbc70,
   0x289b7ec6, 0xeaa127fa, 0xd4ef3085, 0x04881d05,
   0xd9d4d039, 0xe6db99e5, 0x1fa27cf8, 0xc4ac5665,
   0xf4292244, 0x432aff97, 0xab9423a7, 0xfc93a039,
   0x655b59c3, 0x8f0ccc92, 0xffeff47d, 0x85845dd1,
   0x6fa87e4f, 0xfe2ce6e0, 0xa3014314, 0x4e0811a1,
   0xf7537e82, 0xbd3af235, 0x2ad7d2bb, 0xeb86d391]

/-- MD5 per-round left-rotation amounts (RFC 1321). -/
def md5S : List Nat :=
  [7, 12, 17, 22, 7, 12, 17, 22, 7, 12, 17, 22, 7, 12, 17, 22,
   5, 9, 14, 20, 5, 9, 14, 20, 5, 9, 14, 20, 5, 9, 14, 20,
   4, 11, 16, 23, 4, 11, 16, 23, 4, 11, 16, 23, 4, 11, 16, 23,
   6, 10, 15, 21, 6, 10, 15, 21, 6, 10, 15, 21, 6, 10, 15, 21]

/-- MD5 message padding: `0x80`, zero fill to 56 mod 64, then the bit
length as 8 little-endian bytes. -/
def md5Pad (msg : List Nat) : List Nat :=
  let len := msg.length
  let zeros := (119 - len % 64) % 64
  let bitLen := (len * 8) % (2 ^ 64)
  msg ++ [0x80] ++ List.replicate zeros 0 ++
    ((List.range 8).map fun i => (bitLen >>> (8 * i)) &&& 0xFF)

/-- Split a byte list into 64-byte chunks; the fuel argument (any bound
on the number of chunks, here the list length) makes the recursion
structural so concrete digests reduce inside the kernel. -/
def chunks64F : Nat → List Nat → List (List Nat)
  | 0, _ => []
  | _, [] => []
  | fuel + 1, b :: rest => (b :: rest).take 64 :: chunks64F fuel ((b :: rest).drop 64)

/-- Split a byte list into 64-byte chunks. -/
def chunks64 (l : List Nat) : List (List Nat) := chunks64F l.length l

/-- Little-endian 32-bit word `g` of a 64-byte chunk. -/
def leWord (c : List Nat) (g : Nat) : Nat :=
  c.getD (4 * g) 0 + (c.getD (4 * g + 1) 0) * 256 +
    (c.getD (4 * g + 2) 0) * 65536 + (c.getD (4 * g + 3) 0) * 16777216

/-- One MD5 operation (round `i` of 64) on the state `(a, b, c, d)`. -/
def md5Round (m : Nat → Nat) (st : Nat × Nat × Nat × Nat) (i : Nat) : Nat × Nat × Nat × Nat :=
  let (a, b, c, d) := st
  let fg : Nat × Nat :=
    if i < 16 then ((b &&& c) ||| (not32 b &&& d), i)
    else if i < 32 then ((d &&& b) ||| (not32 d &&& c), (5 * i + 1) % 16)
    else if i < 48 then (b ^^^ c ^^^ d, (3 * i + 5) % 16)
    else (c ^^^ (b ||| not32 d), (7 * i) % 16)
  let tmp := (fg.1 + a + md5K.getD i 0 + m fg.2) % M32
  (d, add32 b (rotl32 tmp (md5S.getD i 0)), b, c)

/-- Process one 64-byte chunk. -/
def md5Chunk (st : Nat × Nat × Nat × Nat) (c : List Nat) : Nat × Nat × Nat × Nat :=
  let (a1, b1, c1, d1) := (List.range 64).foldl (md5Round (leWord c)) st
  (add32 st.1 a1, add32 st.2.1 b1, add32 st.2.2.1 c1, add32 st.2.2.2 d1)

/-- Hexadecimal digit character (lowercase). -/
def hexDigit (n : Nat) : Char :=
  if n < 10 then Char.ofNat ('0'.toNat + n) else Char.ofNat ('a'.toNat + n - 10)

/-- Two lowercase hex characters of a byte. -/
def byteHex (b : Nat) : List Char := [hexDigit (b / 16), hexDigit (b % 16)]

/-- The four bytes of a 32-bit word, little-endian. -/
def wordLEBytes (w : Nat) : List Nat :=
  [w &&& 0xFF, (w >>> 8) &&& 0xFF, (w >>> 16) &&& 0xFF, (w >>> 24) &&& 0xFF]

/-- Lowercase hexadecimal MD5 digest of a string's UTF-8 bytes (model of
Node's `crypto.createHash('md5').update(password, 'utf8').digest('hex')`,
following RFC 1321). -/
def md5Hex (s : String) : String :=
  let st := (chunks64 (md5Pad (strBytes s))).foldl md5Chunk
    (0x67452301, 0xefcdab89, 0x98badcfe, 0x10325476)
  String.mk ((wordLEBytes st.1 ++ wordLEBytes st.2.1 ++
    wordLEBytes st.2.2.1 ++ wordLEBytes st.2.2.2).flatMap byteHex)

/-- The substitution loop of `growattHash`: starting at index `i` and
stepping by 2, replace a `'0'` character by `'c'` (the string surgery
`hash.substring(0, i) + 'c' + hash.substring(i + 1)` is `List.set`).
The fuel argument makes the recursion structural; it is immaterial once
it dominates the remaining steps. -/
def growattSubstLoopF : Nat → List Char → Nat → List Char
  | 0, l, _ => l
  | fuel + 1, l, i =>
    if h : i < l.length then
      growattSubstLoopF fuel (if l.get ⟨i, h⟩ = '0' then l.set i 'c' else l) (i + 2)
    else l

/-- The substitution loop, started with enough fuel (the loop advances
two positions per step, so `l.length` steps always suffice). -/
def growattSubstLoop (l : List Char) (i : Nat) : List Char :=
  growattSubstLoopF l.length l i

/-- Model of `growattHash(password)` from `server.js`: the MD5 hex digest with the
even-index `'0'` → `'c'` substitution applied. -/
def growattHash (password : String) : String :=
  String.mk (growattSubstLoop (md5Hex password).data 0)

/-- Modelled from the spec's wording of the substitution ("scanning the
hex string at every even character index (0, 2, 4, …), replace any `'0'`
character found at that position with `'c'`; odd-index zeros are
untouched"), as a structural two-step recursion, to be proved equal to
the source's in-place loop. -/
def evenSubst : List Char → List Char
  | [] => []
  | [c] => [if c = '0' then 'c' else c]
  | c :: c2 :: rest => (if c = '0' then 'c' else c) :: c2 :: evenSubst rest

/-! ### Helper lemmas -/

theorem listStarts_append {n s t : List Char} (h : listStarts n s = true) :
    listStarts n (s ++ t) = true := by
  induction n generalizing s with
  | nil => simp [listStarts]
  | cons c ns ih =>
    cases s with
    | nil => simp [listStarts] at h
    | cons b bs =>
      simp only [listStarts, Bool.and_eq_true] at h ⊢
      exact ⟨h.1, ih h.2⟩

theorem listHasRun_append_left {n l t : List Char} (h : listHasRun n l = true) :
    listHasRun n (l ++ t) = true := by
  induction l with
  | nil =>
    cases n with
    | nil => cases t <;> simp [listHasRun, listStarts]
    | cons c ns => simp [listHasRun, listStarts] at h
  | cons b bs ih =>
    simp only [listHasRun, Bool.or_eq_true] at h
    rcases h with h | h
    · exact by simp only [List.cons_append, listHasRun, Bool.or_eq_true]; exact .inl (listStarts_append h)
    · exact by simp only [List.cons_append, listHasRun, Bool.or_eq_true]; exact .inr (ih h)

theorem listHasRun_append_right {n l t : List Char} (h : listHasRun n t = true) :
    listHasRun n (l ++ t) = true := by
  induction l with
  | nil => simpa using h
  | cons b bs ih => simp only [List.cons_append, listHasRun, Bool.or_eq_true]; exact .inr ih

/-! ### Claim C3 -/

/-- Claim C3: for every list of candidate raw values, `pf` returns the
first candidate (in priority order) that parses as a float and is
non-zero — formally, if index `i` is the least index whose value parses
non-zero, `pf` returns exactly that parsed value — and returns 0 when all
candidates are missing, unparsable, or zero; in particular
`pf(0, "", "12.5", "7") = 12.5` and `pf` of only zero/empty candidates
is 0. -/
theorem C3_pf_first_nonzero_coalesce :
    (∀ l : List JVal, (∀ v ∈ l, ¬ ParsesNonZero v) → pf l = 0) ∧
    (∀ (l : List JVal) (i : Nat) (h : i < l.length),
      ParsesNonZero (l.get ⟨i, h⟩) →
      (∀ j (hj : j < i), ¬ ParsesNonZero (l.get ⟨j, Nat.lt_trans hj h⟩)) →
      jsParseFloat (l.get ⟨i, h⟩) = some (pf l)) ∧
    pf [.jnum 0, .jstr "", .jstr "12.5", .jstr "7"] = mkRat 25 2 ∧
    pf [.jnum 0, .jstr "", .jnum 0] = 0 := by
  refine ⟨?_, ?_, by decide, by decide⟩
  · intro l hall
    induction l with
    | nil => rfl
    | cons v rest ih =>
      have hv : ¬ ParsesNonZero v := hall v (by simp)
      have hrest := ih (fun w hw => hall w (by simp [hw]))
      simp only [pf]
      cases hp : jsParseFloat v with
      | none => exact hrest
      | some n =>
        have : ¬ n ≠ 0 := fun hn => hv ⟨n, hp, hn⟩
        simp [this, hrest]
  · intro l i h hi hmin
    induction l generalizing i with
    | nil => simp at h
    | cons v rest ih =>
      cases i with
      | zero =>
        obtain ⟨n, hp, hn⟩ := hi
        simp only [List.get] at hp ⊢
        simp [pf, hp, hn]
      | succ j =>
        have hv : ¬ ParsesNonZero v := by
          have := hmin 0 (Nat.succ_pos j)
          simpa using this
        have hrec := ih j (Nat.lt_of_succ_lt_succ h) (by simpa using hi)
          (fun k hk => by
            have := hmin (k + 1) (Nat.succ_lt_succ hk)
            simpa using this)
        simp only [List.get] at hi ⊢
        simp only [pf]
        cases hp : jsParseFloat v with
        | none => exact hrec
        | some n =>
          have h0 : ¬ n ≠ 0 := fun hn => hv ⟨n, hp, hn⟩
          simp only [h0, if_false, ite_false]
          simpa using hrec

/-- Witness for C3 at the spec's own example: in
`[0, "", "12.5", "7"]` the least parse-non-zero index is 2 and `pf`
returns its parsed value. -/
theorem C3_pf_first_nonzero_coalesce_witness :
    jsParseFloat (([JVal.jnum 0, .jstr "", .jstr "12.5", .jstr "7"] : List JVal).get ⟨2, by decide⟩) =
      some (pf [JVal.jnum 0, .jstr "", .jstr "12.5", .jstr "7"]) :=
  C3_pf_first_nonzero_coalesce.2.1 [JVal.jnum 0, .jstr "", .jstr "12.5", .jstr "7"] 2
    (by decide) (by decide) (by decide)

/-! ### Claim C1 -/

set_option maxRecDepth 4000 in
/-- Claim C1 counterexample: the claim requires that a body failing
strict JSON parsing and not starting with `<` be salvaged or, failing
that, yield an empty object instead of an error.  For the concrete
unsalvageable body `"x"` the code's `safeJson` instead propagates an
error (so it does not return the empty object `{}`). -/
theorem C1_safeJson_salvage_cex :
    safeJson "StorageDetail" "x" none =
      .error "StorageDetail returned non-JSON: \"x\"" ∧
    safeJson "StorageDetail" "x" none ≠ .ok (JVal.jobj []) :=
  ⟨rfl, fun h => nomatch h⟩

set_option maxRecDepth 4000 in
/-- Claim C1 amended: `safeJson` performs no salvage and no empty-object
fallback, and does not single out HTML bodies.  On strict-parse success
it returns the parsed value; on any strict-parse failure it throws an
error embedding the label and the first 80 characters of the body, whose
message contains `non-JSON` — the kind `withSessionRetry` treats as
session-expired. -/
theorem C1_safeJson_always_errors (label body : String) (v : JVal) :
    safeJson label body (some v) = .ok v ∧
    safeJson label body none =
      .error (label ++ " returned non-JSON: \"" ++ body.take 80 ++ "\"") ∧
    strIncludes (label ++ " returned non-JSON: \"" ++ body.take 80 ++ "\"") "non-JSON" = true := by
  refine ⟨rfl, rfl, ?_⟩
  show listHasRun "non-JSON".data (label ++ " returned non-JSON: \"" ++ body.take 80 ++ "\"").data = true
  have hdata : (label ++ " returned non-JSON: \"" ++ body.take 80 ++ "\"").data =
      label.data ++ (" returned non-JSON: \"".data ++ (body.take 80 ++ "\"").data) := by
    simp [String.data_append, List.append_assoc]
  rw [hdata]
  apply listHasRun_append_right
  apply listHasRun_append_left
  decide

/-! ### Claim C7 -/

theorem ensureSessionE_calls (s : Session) (now : Nat) (e : LoginEnv) :
    (ensureSessionE s now e).2.1 = if needsLogin s now then 1 else 0 := by
  unfold ensureSessionE
  split <;> rfl

theorem needsLogin_iff (s : Session) (now : Nat) :
    needsLogin s now = true ↔
      (s.cookies = none ∨ s.lastLogin = none ∨
        ∃ t, s.lastLogin = some t ∧ now - t > SESSION_TTL) := by
  cases hc : s.cookies <;> cases hl : s.lastLogin <;> simp [needsLogin, hc, hl]

/-- Claim C7: `ensureSession` performs a full login if and only if the
session cookies are absent, or no login timestamp exists, or the time
since the login timestamp exceeds the 30-minute TTL; it never performs
more than one login call per invocation; in particular it performs no
login call when cookies are present and `lastLogin` is recent, and
exactly one login call when `lastLogin` is null or older than the TTL. -/
theorem C7_ensureSession_login_iff (s : Session) (now : Nat) (e : LoginEnv) :
    ((ensureSessionE s now e).2.1 = 1 ↔
      (s.cookies = none ∨ s.lastLogin = none ∨
        ∃ t, s.lastLogin = some t ∧ now - t > SESSION_TTL)) ∧
    (ensureSessionE s now e).2.1 ≤ 1 ∧
    (∀ c t, s.cookies = some c → s.lastLogin = some t → now - t ≤ SESSION_TTL →
      (ensureSessionE s now e).2.1 = 0) ∧
    (s.lastLogin = none → (ensureSessionE s now e).2.1 = 1) ∧
    (∀ t, s.lastLogin = some t → now - t > SESSION_TTL →
      (ensureSessionE s now e).2.1 = 1) := by
  rw [ensureSessionE_calls]
  refine ⟨?_, ?_, ?_, ?_, ?_⟩
  · rw [← needsLogin_iff s now]
    by_cases h : needsLogin s now = true <;> simp [h]
  · by_cases h : needsLogin s now = true <;> simp [h]
  · intro c t hc ht htt
    have : needsLogin s now = false := by
      simp [needsLogin, hc, ht]
      omega
    simp [this]
  · intro hl
    have : needsLogin s now = true := (needsLogin_iff s now).mpr (.inr (.inl hl))
    simp [this]
  · intro t ht htt
    have : needsLogin s now = true := (needsLogin_iff s now).mpr (.inr (.inr ⟨t, ht, htt⟩))
    simp [this]

/-- Witness for C7: with cookies present and a login 1000 ms old the
guard performs no login call; with `lastLogin = null` it performs exactly
one. -/
theorem C7_ensureSession_login_iff_witness :
    (ensureSessionE ⟨some "ck", none, none, none, none, some 0, none, 0⟩ 1000
      ⟨true, none, .error "x", .ok none⟩).2.1 = 0 ∧
    (ensureSessionE ⟨some "ck", none, none, none, none, none, none, 0⟩ 1000
      ⟨true, none, .error "x", .ok none⟩).2.1 = 1 :=
  ⟨(C7_ensureSession_login_iff ⟨some "ck", none, none, none, none, some 0, none, 0⟩ 1000
      ⟨true, none, .error "x", .ok none⟩).2.2.1 "ck" 0 rfl rfl (by decide),
   (C7_ensureSession_login_iff ⟨some "ck", none, none, none, none, none, none, 0⟩ 1000
      ⟨true, none, .error "x", .ok none⟩).2.2.2.1 rfl⟩

/-! ### Claim C6 -/

/-- Claim C6: `withSessionRetry` invokes the operation at most twice.  A
successful first invocation passes through with one invocation; a first
failure whose message lacks the `non-JSON` session-expired marker
propagates with no retry; a first failure with the marker clears
`lastLogin` (the re-establishment runs `ensureSession` on the cleared
session, which then performs exactly one login call) and, when the
re-login succeeds, the operation is retried exactly once and its outcome
— success or failure — is returned; if the re-login itself fails, that
error propagates after a single invocation.  In particular an operation
that always raises the session-expired kind is invoked at most twice and
its error then propagates: no unbounded loop. -/
theorem C6_withSessionRetry_at_most_two {α : Type} (fn : Nat → Except String α)
    (s : Session) (now : Nat) (e : LoginEnv) :
    (withSessionRetry (fun k _ => fn k) s now e).2.2 ≤ 2 ∧
    (∀ a, fn 0 = .ok a → withSessionRetry (fun k _ => fn k) s now e = (.ok a, s, 1)) ∧
    (∀ m, fn 0 = .error m → strIncludes m "non-JSON" = false →
      withSessionRetry (fun k _ => fn k) s now e = (.error m, s, 1)) ∧
    (∀ m, fn 0 = .error m → strIncludes m "non-JSON" = true →
      ((ensureSessionE { s with lastLogin := none } now e).2.1 = 1) ∧
      (∀ s2 n, ensureSessionE { s with lastLogin := none } now e = (s2, n, .ok ()) →
        withSessionRetry (fun k _ => fn k) s now e = (fn 1, s2, 2)) ∧
      (∀ s2 n le, ensureSessionE { s with lastLogin := none } now e = (s2, n, .error le) →
        withSessionRetry (fun k _ => fn k) s now e = (.error le, s2, 1))) := by
  refine ⟨?_, ?_, ?_, ?_⟩
  · unfold withSessionRetry
    cases hfn : fn 0 with
    | ok a => simp [hfn]
    | error m =>
      simp only [hfn]
      by_cases hm : strIncludes m "non-JSON" = true
      · simp only [hm, if_true]
        rcases h2 : ensureSessionE { s with lastLogin := none } now e with ⟨s2, n, r⟩
        cases r <;> simp
      · simp [hm]
  · intro a ha
    unfold withSessionRetry
    simp [ha]
  · intro m hm hinc
    unfold withSessionRetry
    simp [hm, hinc]
  · intro m hm hinc
    refine ⟨?_, ?_, ?_⟩
    · rw [ensureSessionE_calls]
      have : needsLogin { s with lastLogin := none } now = true :=
        (needsLogin_iff _ now).mpr (.inr (.inl rfl))
      simp [this]
    · intro s2 n h2
      unfold withSessionRetry
      simp [hm, hinc, h2]
    · intro s2 n le h2
      unfold withSessionRetry
      simp [hm, hinc, h2]

/-- Witness for C6: an operation that always fails with the
session-expired kind, run against an environment whose re-login
succeeds, is invoked exactly twice and its error propagates. -/
theorem C6_withSessionRetry_at_most_two_witness :
    withSessionRetry
        (fun _ (_ : Session) => (Except.error "Foo returned non-JSON: \"bad\"" : Except String JVal))
        ⟨some "ck", none, none, none, none, some 0, none, 0⟩ 5
        ⟨true, some "ck2", .ok ⟨"u1", "p1", "Home"⟩, .ok (some "SN1")⟩ =
      (.error "Foo returned non-JSON: \"bad\"",
        ⟨some "ck2", some "u1", some "p1", some "Home", some "SN1", some 5, none, 0⟩, 2) :=
  ((C6_withSessionRetry_at_most_two
      (fun _ => (Except.error "Foo returned non-JSON: \"bad\"" : Except String JVal))
      ⟨some "ck", none, none, none, none, some 0, none, 0⟩ 5
      ⟨true, some "ck2", .ok ⟨"u1", "p1", "Home"⟩, .ok (some "SN1")⟩).2.2.2
    "Foo returned non-JSON: \"bad\"" rfl (by decide)).2.1
    ⟨some "ck2", some "u1", some "p1", some "Home", some "SN1", some 5, none, 0⟩ 1 rfl

/-! ### Pipeline lemmas and claims C4, C5 -/

theorem loginE_preserves_cache (s : Session) (now : Nat) (e : LoginEnv) :
    ((loginE s now e).1).lastData = s.lastData ∧
      ((loginE s now e).1).lastFetch = s.lastFetch := by
  unfold loginE
  by_cases hc : e.configured
  · simp only [hc, not_true, if_false, ite_false]
    cases e.result with
    | error m => exact ⟨rfl, rfl⟩
    | ok ids =>
      cases e.discovery with
      | error m => exact ⟨rfl, rfl⟩
      | ok snf => cases snf <;> exact ⟨rfl, rfl⟩
  · simp only [hc, not_false_iff, if_true, ite_true]
    exact ⟨rfl, rfl⟩

theorem ensureSessionE_preserves_cache (s : Session) (now : Nat) (e : LoginEnv) :
    ((ensureSessionE s now e).1).lastData = s.lastData ∧
      ((ensureSessionE s now e).1).lastFetch = s.lastFetch := by
  unfold ensureSessionE
  split
  · rcases h : loginE s now e with ⟨s1, r⟩
    have hp := loginE_preserves_cache s now e
    rw [h] at hp
    exact ⟨hp.1, hp.2⟩
  · exact ⟨rfl, rfl⟩

theorem withSessionRetry_calls_pos {α : Type} (fn : Nat → Session → Except String α)
    (s : Session) (now : Nat) (e : LoginEnv) :
    1 ≤ (withSessionRetry fn s now e).2.2 := by
  unfold withSessionRetry
  cases hfn : fn 0 s with
  | ok a => simp
  | error m =>
    by_cases hm : strIncludes m "non-JSON" = true
    · simp only [hm, if_true]
      rcases h2 : ensureSessionE { s with lastLogin := none } now e with ⟨s2, n, r⟩
      cases r <;> simp
    · simp [hm]

theorem apiDataPipeline_ok_shape (s : Session) (now : Nat) (env : Env) (c : Bool)
    (d : DashData) (h : (apiDataPipeline s now env).resp = .ok c d) :
    c = false ∧ (apiDataPipeline s now env).ses.lastData = some d ∧
      (apiDataPipeline s now env).ses.lastFetch = now ∧
      0 < (apiDataPipeline s now env).calls := by
  unfold apiDataPipeline at h ⊢
  rcases hr : ensureSessionE s now env.login with ⟨s1, lc, r⟩
  rw [hr] at h
  cases r with
  | error msg => simp at h
  | ok u =>
    rcases h2 : withSessionRetry (fun _ ss => getStorageDataE ss env) s1 now env.login
      with ⟨storageRes, s2, c2⟩
    rcases h3 : withSessionRetry (fun _ _ => getPlantDetailE env) s2 now env.login
      with ⟨plantRes, s3, c3⟩
    simp only [h2, h3, ApiResponse.ok.injEq] at h ⊢
    have hc2 : 1 ≤ c2 := by
      have hpos := withSessionRetry_calls_pos (fun _ ss => getStorageDataE ss env) s1 now env.login
      rw [h2] at hpos
      exact hpos
    refine ⟨h.1.symm, ?_, trivial, ?_⟩
    · simp [← h.2]
    · omega

/-- Claim C4: a `/api/data` request with a stored snapshot younger than
the 60-second window returns exactly the stored snapshot marked
`cached:true`, leaves the session untouched and performs no upstream
operation; otherwise the pipeline runs, and whenever it produces a
success payload, that payload is marked `cached:false`, is stored as the
new snapshot with `lastFetch = now`, and at least one upstream operation
was performed. -/
theorem C4_apiData_cache_freshness (s : Session) (now : Nat) (env : Env) :
    (∀ d0, s.lastData = some d0 → now - s.lastFetch < DATA_CACHE_TTL →
      apiData s now env = ⟨.ok true d0, s, 0⟩) ∧
    ((s.lastData = none ∨ DATA_CACHE_TTL ≤ now - s.lastFetch) →
      ∀ c d, (apiData s now env).resp = .ok c d →
        c = false ∧ (apiData s now env).ses.lastData = some d ∧
        (apiData s now env).ses.lastFetch = now ∧ 0 < (apiData s now env).calls) := by
  constructor
  · intro d0 hd hfresh
    unfold apiData
    rw [hd]
    simp [hfresh]
  · intro hmiss c d h
    unfold apiData at h ⊢
    cases hd : s.lastData with
    | none =>
      rw [hd] at h
      exact apiDataPipeline_ok_shape s now env c d h
    | some d0 =>
      have hstale : ¬ (now - s.lastFetch < DATA_CACHE_TTL) := by
        rcases hmiss with hm | hm
        · rw [hd] at hm; cases hm
        · omega
      rw [hd] at h
      simp only [hstale, ite_false, if_false] at h ⊢
      exact apiDataPipeline_ok_shape s now env c d h

/-- Witness for C4: a concrete fresh-cache request returns the stored
snapshot, cached, with zero upstream calls. -/
theorem C4_apiData_cache_freshness_witness :
    apiData
        ⟨some "ck", none, none, none, none, some 0, some (buildDash
          ⟨some "ck", none, none, none, none, some 0, none, 0⟩ 0
          ⟨.jobj [], .jobj [], .jobj []⟩ (.jobj [])), 100⟩ 5000
        ⟨⟨true, none, .error "x", .ok none⟩, .error "a", .error "b", .error "c", .error "d"⟩ =
      ⟨.ok true (buildDash ⟨some "ck", none, none, none, none, some 0, none, 0⟩ 0
          ⟨.jobj [], .jobj [], .jobj []⟩ (.jobj [])),
        ⟨some "ck", none, none, none, none, some 0, some (buildDash
          ⟨some "ck", none, none, none, none, some 0, none, 0⟩ 0
          ⟨.jobj [], .jobj [], .jobj []⟩ (.jobj [])), 100⟩, 0⟩ :=
  (C4_apiData_cache_freshness _ 5000 _).1 _ rfl (by decide)

/-- Claim C5: when the `/api/data` pipeline fails, the previously cached
snapshot and its timestamp are unchanged and the error is returned; if
the message mentions `Login` or `session`, `lastLogin` is additionally
cleared so the next attempt re-authenticates. -/
theorem C5_apiData_error_preserves_cache (s : Session) (now : Nat) (env : Env) (msg : String)
    (herr : (apiData s now env).resp = .err msg) :
    (apiData s now env).ses.lastData = s.lastData ∧
    (apiData s now env).ses.lastFetch = s.lastFetch ∧
    ((strIncludes msg "Login" || strIncludes msg "session") = true →
      (apiData s now env).ses.lastLogin = none) := by
  have hpipe : (apiDataPipeline s now env).resp = .err msg →
      (apiDataPipeline s now env).ses.lastData = s.lastData ∧
      (apiDataPipeline s now env).ses.lastFetch = s.lastFetch ∧
      ((strIncludes msg "Login" || strIncludes msg "session") = true →
        (apiDataPipeline s now env).ses.lastLogin = none) := by
    intro hp
    unfold apiDataPipeline at hp ⊢
    rcases hr : ensureSessionE s now env.login with ⟨s1, lc, r⟩
    rw [hr] at hp
    cases r with
    | ok u =>
      rcases h2 : withSessionRetry (fun _ ss => getStorageDataE ss env) s1 now env.login
        with ⟨storageRes, s2, c2⟩
      rcases h3 : withSessionRetry (fun _ _ => getPlantDetailE env) s2 now env.login
        with ⟨plantRes, s3, c3⟩
      simp only [h2, h3] at hp
      simp at hp
    | error m =>
      have hpres := ensureSessionE_preserves_cache s now env.login
      rw [hr] at hpres
      simp only at hp
      have hmsg : m = msg := by
        simpa using hp
      subst hmsg
      by_cases hinc : (strIncludes m "Login" || strIncludes m "session") = true
      · refine ⟨?_, ?_, fun _ => ?_⟩
        · simpa [hinc] using hpres.1
        · simpa [hinc] using hpres.2
        · simp [hinc]
      · refine ⟨?_, ?_, fun hcon => absurd hcon hinc⟩
        · simpa [hinc] using hpres.1
        · simpa [hinc] using hpres.2
  unfold apiData at herr ⊢
  cases hd : s.lastData with
  | none =>
    rw [hd] at herr
    rw [hd] at hpipe
    exact hpipe herr
  | some d0 =>
    rw [hd] at herr
    by_cases hfresh : now - s.lastFetch < DATA_CACHE_TTL
    · simp [hfresh] at herr
    · rw [hd] at hpipe
      simp only [hfresh, ite_false, if_false] at herr ⊢
      exact hpipe herr


/-- Witness for C5: a concrete failing login ("Login failed: bad")
leaves the (empty) cache untouched and clears `lastLogin`. -/
theorem C5_apiData_error_preserves_cache_witness :
    (apiData ⟨none, none, none, none, none, some 7, none, 42⟩ 5
        ⟨⟨true, some "ck", .error "Login failed: bad", .ok none⟩,
          .error "a", .error "b", .error "c", .error "d"⟩).ses.lastData = none ∧
    (apiData ⟨none, none, none, none, none, some 7, none, 42⟩ 5
        ⟨⟨true, some "ck", .error "Login failed: bad", .ok none⟩,
          .error "a", .error "b", .error "c", .error "d"⟩).ses.lastFetch = 42 ∧
    (apiData ⟨none, none, none, none, none, some 7, none, 42⟩ 5
        ⟨⟨true, some "ck", .error "Login failed: bad", .ok none⟩,
          .error "a", .error "b", .error "c", .error "d"⟩).ses.lastLogin = none := by
  have h := C5_apiData_error_preserves_cache
    ⟨none, none, none, none, none, some 7, none, 42⟩ 5
    ⟨⟨true, some "ck", .error "Login failed: bad", .ok none⟩,
      .error "a", .error "b", .error "c", .error "d"⟩ "Login failed: bad" rfl
  exact ⟨h.1, h.2.1, h.2.2 (by decide)⟩

/-! ### Claim C2 -/

/-- The snapshot carried by a success response, if any. -/
def respSnapshot : ApiResponse → Option DashData
  | .ok _ d => some d
  | .err _ => none

/-- The `cached` flag carried by a success response, if any. -/
def respCached : ApiResponse → Option Bool
  | .ok c _ => some c
  | .err _ => none

set_option maxRecDepth 4000 in
/-- Claim C2 counterexample: the claim requires that when the
energy-overview fetch throws while storage-detail (here reporting
`vbat = "51.2"`, `capacity = "55"`) and plant-detail succeed, the
snapshot keep the non-zero values from the successful sources.  In the
code the three storage endpoints live inside one `getStorageData` guarded
by a single try/catch, so the energy failure discards the storage-detail
payload as well: the response succeeds but `battery.voltage` and
`battery.soc` are 0, not 51.2 and 55. -/
theorem C2_energy_failure_not_isolated_cex :
    (respSnapshot ((apiData ⟨some "ck", none, none, none, some "SN", some 0, none, 0⟩ 1000
        ⟨⟨true, none, .error "x", .ok none⟩,
          .ok (.jobj [("obj", .jobj [("vbat", .jstr "51.2"), ("capacity", .jstr "55")])]),
          .error "boom",
          .ok (.jobj []),
          .ok (.jobj [("back", .jobj [])])⟩).resp)).map DashData.batVoltage = some 0 ∧
    (respSnapshot ((apiData ⟨some "ck", none, none, none, some "SN", some 0, none, 0⟩ 1000
        ⟨⟨true, none, .error "x", .ok none⟩,
          .ok (.jobj [("obj", .jobj [("vbat", .jstr "51.2"), ("capacity", .jstr "55")])]),
          .error "boom",
          .ok (.jobj []),
          .ok (.jobj [("back", .jobj [])])⟩).resp)).map DashData.batSoc = some 0 ∧
    (respCached ((apiData ⟨some "ck", none, none, none, some "SN", some 0, none, 0⟩ 1000
        ⟨⟨true, none, .error "x", .ok none⟩,
          .ok (.jobj [("obj", .jobj [("vbat", .jstr "51.2"), ("capacity", .jstr "55")])]),
          .error "boom",
          .ok (.jobj []),
          .ok (.jobj [("back", .jobj [])])⟩).resp)) = some false ∧
    jsParseFloat (.jstr "51.2") = some (mkRat 512 10) ∧ (mkRat 512 10 : Rat) ≠ 0 ∧
    jsParseFloat (.jstr "55") = some 55 ∧ (55 : Rat) ≠ 0 := by
  refine ⟨by decide, by decide, by decide, by decide, by decide, by decide, by decide⟩

/-- Claim C2 amended: only two upstream units are independently wrapped —
the storage-data fetch (storage detail, energy overview and storage
params as a single unit) and the plant-detail fetch.  A failure of the
energy-overview fetch aborts the whole storage unit, so the snapshot is
normalized from empty storage objects (all storage-derived fields zero)
even when storage-detail succeeded; conversely a plant-detail failure
leaves the storage-derived fields intact.  In both cases the request
still succeeds with `cached:false`. -/
theorem C2_isolation_amended (s : Session) (now : Nat) (env : Env) (sn ck : String) (t : Nat)
    (hck : s.cookies = some ck) (ht : s.lastLogin = some t) (hrecent : now - t ≤ SESSION_TTL)
    (hmiss : s.lastData = none) (hsn : s.deviceSn = some sn) :
    (∀ dv m, env.detail = .ok dv → env.energy = .error m → strIncludes m "non-JSON" = false →
      ∀ pv, env.plant = .ok pv →
        (apiData s now env).resp = .ok false
          (buildDash s now ⟨.jobj [], .jobj [], .jobj []⟩
            (truthyOr (jget pv "back") (.jobj [])))) ∧
    (∀ m, env.plant = .error m → strIncludes m "non-JSON" = false →
      ∀ r, getStorageDataE s env = .ok r →
        (apiData s now env).resp = .ok false
          (buildDash s now r (.jobj [("error", .jstr m)]))) := by
  have hneed : needsLogin s now = false := by
    simp [needsLogin, hck, ht]
    omega
  have hens : ensureSessionE s now env.login = (s, 0, .ok ()) := by
    simp [ensureSessionE, hneed]
  constructor
  · intro dv m hdv hm hnj pv hpv
    have hst : getStorageDataE s env = .error m := by
      simp [getStorageDataE, hsn, hdv, hm]
    have hpl : getPlantDetailE env = .ok (truthyOr (jget pv "back") (.jobj [])) := by
      simp [getPlantDetailE, hpv]
    simp [apiData, hmiss, apiDataPipeline, hens, withSessionRetry, hst, hnj, hpl]
  · intro m hpm hnj r hr
    have hpl : getPlantDetailE env = .error m := by
      simp [getPlantDetailE, hpm]
    simp [apiData, hmiss, apiDataPipeline, hens, withSessionRetry, hr, hpl, hnj]

set_option maxRecDepth 4000 in
/-- Witness for C2 (amended): a concrete run in which storage-detail
succeeds, energy-overview throws and plant-detail succeeds produces the
snapshot normalized from empty storage objects. -/
theorem C2_isolation_amended_witness :
    (apiData ⟨some "ck", none, none, none, some "SN", some 0, none, 0⟩ 1000
        ⟨⟨true, none, .error "x", .ok none⟩,
          .ok (.jobj [("obj", .jobj [("vbat", .jstr "51.2"), ("capacity", .jstr "55")])]),
          .error "boom",
          .ok (.jobj []),
          .ok (.jobj [("back", .jobj [])])⟩).resp = .ok false
      (buildDash ⟨some "ck", none, none, none, some "SN", some 0, none, 0⟩ 1000
        ⟨.jobj [], .jobj [], .jobj []⟩
        (truthyOr (jget (.jobj [("back", .jobj [])]) "back") (.jobj []))) :=
  (C2_isolation_amended ⟨some "ck", none, none, none, some "SN", some 0, none, 0⟩ 1000
      ⟨⟨true, none, .error "x", .ok none⟩,
        .ok (.jobj [("obj", .jobj [("vbat", .jstr "51.2"), ("capacity", .jstr "55")])]),
        .error "boom",
        .ok (.jobj []),
        .ok (.jobj [("back", .jobj [])])⟩ "SN" "ck" 0 rfl rfl (by decide) rfl rfl).1
    (.jobj [("obj", .jobj [("vbat", .jstr "51.2"), ("capacity", .jstr "55")])]) "boom"
    rfl rfl (by decide) (.jobj [("back", .jobj [])]) rfl

/-! ### Claim C10 -/

/-- The rational-valued telemetry fields of a snapshot. -/
def numFields (d : DashData) : List Rat :=
  [d.plantCurrentPower, d.plantTodayEnergy, d.plantMonthEnergy, d.plantTotalEnergy,
   d.pvPower, d.pvPowerStr2, d.pvVoltage, d.pvCurrent, d.pvTodayEnergy, d.pvTotalEnergy,
   d.batSoc, d.batVoltage, d.batChargePower, d.batDischargePower, d.batDischargeCurrent,
   d.batChargeToday, d.batDischargeToday, d.batTemperature,
   d.loadPower, d.loadCurrent, d.loadVoltage, d.loadFrequency, d.loadTodayEnergy,
   d.loadPercent, d.gridPower, d.gridVoltage, d.gridFrequency, d.gridImportToday,
   d.gridExportToday, d.invTemperature, d.invDcDcTemperature,
   d.energyPvToday, d.energyPvTotal, d.energyConsumptionToday, d.energyConsumptionTotal,
   d.energyGridImportToday, d.energyGridImportTotal, d.energyGridExportToday,
   d.energyGridExportTotal, d.energyBatteryChargeToday, d.energyBatteryDischargeToday,
   d.energyAcChargeToday, d.energyAcDischargeToday]

/-- Every numeric field of the snapshot is zero (the telemetry rationals
and the integer status code). -/
def allZeroSnap (d : DashData) : Bool :=
  (numFields d).all (fun q => decide (q = 0)) && decide (d.invStatusCode = 0)

/-- Claim C10: on a cache miss with a valid session, if every upstream
source fails (the storage unit and the plant-detail fetch both throw,
with non-session-expired errors), `/api/data` still answers
`success:true, cached:false` with a snapshot whose numeric fields are all
zero; that snapshot is stored with the fresh timestamp and any request
within the next 60 seconds is served from cache (`cached:true`) with the
identical all-zero snapshot and no upstream call. -/
theorem C10_all_sources_fail_zero_snapshot (s : Session) (now : Nat) (env : Env)
    (sn ck : String) (t : Nat) (m1 m2 : String)
    (hck : s.cookies = some ck) (ht : s.lastLogin = some t) (hrecent : now - t ≤ SESSION_TTL)
    (hmiss : s.lastData = none) (hsn : s.deviceSn = some sn)
    (hd : env.detail = .error m1) (hnj1 : strIncludes m1 "non-JSON" = false)
    (hp : env.plant = .error m2) (hnj2 : strIncludes m2 "non-JSON" = false) :
    (apiData s now env).resp = .ok false
      (buildDash s now ⟨.jobj [], .jobj [], .jobj []⟩ (.jobj [("error", .jstr m2)])) ∧
    allZeroSnap
      (buildDash s now ⟨.jobj [], .jobj [], .jobj []⟩ (.jobj [("error", .jstr m2)])) = true ∧
    (apiData s now env).ses.lastData =
      some (buildDash s now ⟨.jobj [], .jobj [], .jobj []⟩ (.jobj [("error", .jstr m2)])) ∧
    (apiData s now env).ses.lastFetch = now ∧
    (∀ now2 env2, now2 - now < DATA_CACHE_TTL →
      apiData (apiData s now env).ses now2 env2 =
        ⟨.ok true (buildDash s now ⟨.jobj [], .jobj [], .jobj []⟩
            (.jobj [("error", .jstr m2)])),
          (apiData s now env).ses, 0⟩) := by
  have hneed : needsLogin s now = false := by
    simp [needsLogin, hck, ht]
    omega
  have hens : ensureSessionE s now env.login = (s, 0, .ok ()) := by
    simp [ensureSessionE, hneed]
  have hst : getStorageDataE s env = .error m1 := by
    simp [getStorageDataE, hsn, hd]
  have hpl : getPlantDetailE env = .error m2 := by
    simp [getPlantDetailE, hp]
  have hzero : allZeroSnap
      (buildDash s now ⟨.jobj [], .jobj [], .jobj []⟩ (.jobj [("error", .jstr m2)])) = true := by
    rfl
  have hmain : apiData s now env =
      ⟨.ok false (buildDash s now ⟨.jobj [], .jobj [], .jobj []⟩ (.jobj [("error", .jstr m2)])),
        { s with lastData := some (buildDash s now ⟨.jobj [], .jobj [], .jobj []⟩
            (.jobj [("error", .jstr m2)])), lastFetch := now }, 0 + 1 + 1⟩ := by
    simp [apiData, hmiss, apiDataPipeline, hens, withSessionRetry, hst, hnj1, hpl, hnj2]
  refine ⟨by rw [hmain], hzero, by rw [hmain], by rw [hmain], ?_⟩
  intro now2 env2 hfresh2
  rw [hmain]
  simp [apiData, hfresh2]

/-- Witness for C10: a concrete run with both upstream units failing
yields the all-zero snapshot, and the all-zero check itself holds on
that snapshot. -/
theorem C10_all_sources_fail_zero_snapshot_witness :
    (apiData ⟨some "ck", none, none, none, some "SN", some 0, none, 0⟩ 1000
        ⟨⟨true, none, .error "x", .ok none⟩, .error "det down", .error "en down",
          .error "par down", .error "pl down"⟩).resp = .ok false
      (buildDash ⟨some "ck", none, none, none, some "SN", some 0, none, 0⟩ 1000
        ⟨.jobj [], .jobj [], .jobj []⟩ (.jobj [("error", .jstr "pl down")])) ∧
    allZeroSnap (buildDash ⟨some "ck", none, none, none, some "SN", some 0, none, 0⟩ 1000
        ⟨.jobj [], .jobj [], .jobj []⟩ (.jobj [("error", .jstr "pl down")])) = true := by
  have h := C10_all_sources_fail_zero_snapshot
    ⟨some "ck", none, none, none, some "SN", some 0, none, 0⟩ 1000
    ⟨⟨true, none, .error "x", .ok none⟩, .error "det down", .error "en down",
      .error "par down", .error "pl down"⟩
    "SN" "ck" 0 "det down" "pl down" rfl rfl (by decide) rfl rfl rfl (by decide) rfl (by decide)
  exact ⟨h.1, h.2.1⟩

/-! ### Claim C8 -/

theorem growattSubstLoopF_stop (fuel : Nat) (l : List Char) (i : Nat) (h : l.length ≤ i) :
    growattSubstLoopF fuel l i = l := by
  cases fuel with
  | zero => rfl
  | succ f =>
    unfold growattSubstLoopF
    rw [dif_neg (Nat.not_lt.mpr h)]

theorem substLoop_append (fuel : Nat) : ∀ (l2 l1 : List Char), l2.length ≤ fuel →
    growattSubstLoopF fuel (l1 ++ l2) l1.length = l1 ++ evenSubst l2 := by
  induction fuel with
  | zero =>
    intro l2 l1 h
    have h0 : l2 = [] := List.length_eq_zero.mp (Nat.le_zero.mp h)
    subst h0
    simp [growattSubstLoopF, evenSubst]
  | succ f ih =>
    intro l2 l1 h
    cases l2 with
    | nil =>
      simp only [List.append_nil, evenSubst]
      exact growattSubstLoopF_stop _ _ _ (Nat.le_refl _)
    | cons c rest =>
      have hlt : l1.length < (l1 ++ c :: rest).length := by simp
      unfold growattSubstLoopF
      rw [dif_pos hlt]
      have hget : (l1 ++ c :: rest).get ⟨l1.length, hlt⟩ = c := by
        have hg := @List.getElem_append_right Char l1 (c :: rest) l1.length
          (Nat.le_refl _) hlt
        simpa using hg
      rw [hget]
      have hset : (l1 ++ c :: rest).set l1.length 'c' = l1 ++ 'c' :: rest := by
        rw [List.set_append_right _ _ (Nat.le_refl _)]
        simp
      have hbranch : (if c = '0' then (l1 ++ c :: rest).set l1.length 'c' else l1 ++ c :: rest)
          = l1 ++ (if c = '0' then 'c' else c) :: rest := by
        by_cases hc : c = '0'
        · simp [hc, hset]
        · simp [hc]
      rw [hbranch]
      cases rest with
      | nil =>
        rw [growattSubstLoopF_stop f _ _
          (by simp only [List.length_append, List.length_cons, List.length_nil]; omega)]
        simp [evenSubst]
      | cons c2 rest2 =>
        have hsplit : l1 ++ (if c = '0' then 'c' else c) :: c2 :: rest2
            = (l1 ++ [if c = '0' then 'c' else c, c2]) ++ rest2 := by simp
        have hlen2 : l1.length + 2 = (l1 ++ [if c = '0' then 'c' else c, c2]).length := by simp
        rw [hsplit, hlen2, ih rest2 _ (by simp at h; omega)]
        simp [evenSubst]

theorem growattSubstLoop_eq_evenSubst (l : List Char) :
    growattSubstLoop l 0 = evenSubst l := by
  have h := substLoop_append l.length l [] (Nat.le_refl _)
  simpa [growattSubstLoop] using h

theorem evenSubst_even_ne_zero : ∀ (l : List Char) (i : Nat) (h : i < (evenSubst l).length),
    i % 2 = 0 → (evenSubst l).get ⟨i, h⟩ ≠ '0' := by
  intro l
  induction l using evenSubst.induct with
  | case1 => intro i h hpar; simp [evenSubst] at h
  | case2 c =>
    intro i h hpar
    have hi : i = 0 := by simp [evenSubst] at h; omega
    subst hi
    by_cases hc : c = '0'
    · simp [evenSubst, hc]
    · simp [evenSubst, hc]
  | case3 c c2 rest ih =>
    intro i h hpar
    cases i with
    | zero =>
      by_cases hc : c = '0'
      · simp [evenSubst, hc]
      · simp [evenSubst, hc]
    | succ j =>
      cases j with
      | zero => simp at hpar
      | succ k =>
        have hk : k < (evenSubst rest).length := by
          simp only [evenSubst, List.length_cons] at h
          omega
        have hkpar : k % 2 = 0 := by omega
        have := ih k hk hkpar
        simpa [evenSubst, List.get] using this

theorem evenSubst_odd_unchanged : ∀ (l : List Char) (i : Nat)
    (h : i < (evenSubst l).length) (h' : i < l.length),
    i % 2 = 1 → (evenSubst l).get ⟨i, h⟩ = l.get ⟨i, h'⟩ := by
  intro l
  induction l using evenSubst.induct with
  | case1 => intro i h h' hpar; simp [evenSubst] at h
  | case2 c =>
    intro i h h' hpar
    have hi : i = 0 := by simp at h'; omega
    subst hi
    simp at hpar
  | case3 c c2 rest ih =>
    intro i h h' hpar
    cases i with
    | zero => simp at hpar
    | succ j =>
      cases j with
      | zero => simp [evenSubst]
      | succ k =>
        have hk : k < (evenSubst rest).length := by
          simp only [evenSubst, List.length_cons] at h
          omega
        have hk' : k < rest.length := by
          simp at h'
          omega
        have hkpar : k % 2 = 1 := by omega
        have := ih k hk hk' hkpar
        simpa [evenSubst, List.get] using this

/-- Claim C8: `growattHash` returns the lowercase hex MD5 digest of the
password with every `'0'` at an even index replaced by `'c'` (the
source's in-place surgery loop coincides with that description,
`evenSubst`); odd-index characters are unchanged from the digest;
hashing is deterministic; and at every even index the result is not
`'0'`. -/
theorem C8_growattHash_even_subst (p : String) :
    growattHash p = String.mk (evenSubst (md5Hex p).data) ∧
    (∀ q, p = q → growattHash p = growattHash q) ∧
    (∀ i (h : i < (growattHash p).data.length), i % 2 = 0 →
      (growattHash p).data.get ⟨i, h⟩ ≠ '0') ∧
    (∀ i (h : i < (growattHash p).data.length) (h' : i < (md5Hex p).data.length), i % 2 = 1 →
      (growattHash p).data.get ⟨i, h⟩ = (md5Hex p).data.get ⟨i, h'⟩) := by
  have hdef : growattHash p = String.mk (evenSubst (md5Hex p).data) := by
    unfold growattHash
    rw [growattSubstLoop_eq_evenSubst]
  refine ⟨hdef, fun q hq => by rw [hq], ?_, ?_⟩
  · intro i h hpar
    have h2 : i < (evenSubst (md5Hex p).data).length := by
      rw [hdef] at h
      exact h
    have := evenSubst_even_ne_zero (md5Hex p).data i h2 hpar
    -- transport the `get` along `hdef`
    revert h
    rw [hdef]
    intro h
    exact this
  · intro i h h' hpar
    have h2 : i < (evenSubst (md5Hex p).data).length := by
      rw [hdef] at h
      exact h
    have := evenSubst_odd_unchanged (md5Hex p).data i h2 h' hpar
    revert h
    rw [hdef]
    intro h
    exact this

set_option maxRecDepth 100000 in
/-- Witness for C8 at the password `"a"`: the digest's character at even
index 0 is not `'0'` (the raw MD5 of `"a"` starts with `'0'`, the hash
replaces it by `'c'`), and the concrete hash value is evaluated in
full. -/
theorem C8_growattHash_even_subst_witness :
    (growattHash "a").data.get ⟨0, by decide⟩ ≠ '0' ∧
    growattHash "a" = "ccc175b9c0f1b6a831c399e269772661" ∧
    md5Hex "a" = "0cc175b9c0f1b6a831c399e269772661" :=
  ⟨(C8_growattHash_even_subst "a").2.2.1 0 (by decide) (by decide), by decide, by decide⟩

/-! ### Claim C9 -/

/-- Characters of `l` before the first occurrence of `c`
(JavaScript `raw.split(c)[0]`). -/
def upTo (c : Char) : List Char → List Char
  | [] => []
  | x :: xs => if x = c then [] else x :: upTo c xs

/-- JavaScript `trim()`: strip whitespace from both ends. -/
def trimChars (l : List Char) : List Char :=
  ((l.dropWhile isWs).reverse.dropWhile isWs).reverse

/-- Split at the first `'='` (JavaScript `indexOf('=')` +
`substring`). -/
def splitFirstEq : List Char → Option (List Char × List Char)
  | [] => none
  | x :: xs =>
    if x = '=' then some ([], xs)
    else (splitFirstEq xs).map (fun p => (x :: p.1, p.2))

/-- One raw `Set-Cookie` header value parsed as in `captureCookies`: keep
the text before the first `;`, trim, split at the first `=`, trim name
and value, skip entries without `=` or with an empty name. -/
def parseCookiePair (raw : String) : Option (String × String) :=
  let pair := trimChars (upTo ';' raw.data)
  match splitFirstEq pair with
  | none => none
  | some nv =>
    let n := trimChars nv.1
    if n = [] then none else some (String.mk n, String.mk (trimChars nv.2))

/-- Model of `cookieJar.set(name, value)`: overwrite in place when the name
exists, else append (insertion order preserved, one value per name). -/
def jarSet (jar : List (String × String)) (n v : String) : List (String × String) :=
  if jar.any (fun p => p.1 == n) then
    jar.map (fun p => if p.1 == n then (n, v) else p)
  else jar ++ [(n, v)]

/-- Serialization `Array.from(jar.entries()).map(k + '=' + v).join('; ')` of the jar. -/
def jarJoin : List (String × String) → String
  | [] => ""
  | [p] => p.1 ++ "=" ++ p.2
  | p :: q :: rest => p.1 ++ "=" ++ p.2 ++ "; " ++ jarJoin (q :: rest)

/-- Rendering `join('; ') || null`: the serialized jar, or `null` when the
result is the empty string. -/
def renderJar (jar : List (String × String)) : Option String :=
  if jarJoin jar = "" then none else some (jarJoin jar)

/-- One entry of the `captureCookies` loop body applied to the jar. -/
def captureStep (j : List (String × String)) (raw : String) : List (String × String) :=
  match parseCookiePair raw with
  | some nv => jarSet j nv.1 nv.2
  | none => j

/-- Jar / cookie-string / login-stamp fragment of the session state for
the cookie-capture state machine. -/
structure JarState where
  jar : List (String × String)
  cookies : Option String
  lastLogin : Option Nat

/-- Model of `captureCookies(res)`: upsert every parsed `Set-Cookie` entry, then
rebuild `session.cookies` from the jar (or `null`). -/
def captureCookiesJ (st : JarState) (raws : List String) : JarState :=
  let jarNew := raws.foldl captureStep st.jar
  { st with jar := jarNew, cookies := renderJar jarNew }

/-- The session-state operations that touch cookies or the login stamp:
a data fetch (captures response cookies), a failure handler
(`session.lastLogin = null`), and a `login()` attempt — clear jar and
cookie string, capture the login response's cookies, and when the
envelope validates stamp `lastLogin` and run the discovery fetches (each
capturing); a login that fails before validation performs no further
steps. -/
inductive SessionOp where
  | fetchOp : List String → SessionOp
  | invalidate : SessionOp
  | loginOp : List String → Bool → Nat → List (List String) → SessionOp

/-- One operation applied to the state. -/
def applyOp (st : JarState) : SessionOp → JarState
  | .fetchOp raws => captureCookiesJ st raws
  | .invalidate => { st with lastLogin := none }
  | .loginOp loginRaws valid t discRaws =>
    let st1 := captureCookiesJ { st with jar := [], cookies := none } loginRaws
    if valid then
      discRaws.foldl captureCookiesJ { st1 with lastLogin := some t }
    else st1

/-- Run a sequence of operations from the empty initial state. -/
def runOps (ops : List SessionOp) : JarState :=
  ops.foldl applyOp ⟨[], none, none⟩

/-- At least one raw header parses to a cookie pair. -/
def capturesCookie (raws : List String) : Bool :=
  raws.any (fun r => (parseCookiePair r).isSome)

/-- The side condition of the amended invariant: every login attempt's
response delivers at least one parseable cookie. -/
def GoodOp : SessionOp → Prop
  | .loginOp loginRaws _ _ _ => capturesCookie loginRaws = true
  | _ => True

theorem jarSet_ne_nil (j : List (String × String)) (n v : String) :
    jarSet j n v ≠ [] := by
  unfold jarSet
  split
  · rename_i hany
    cases j with
    | nil => simp [List.any] at hany
    | cons p rest => simp
  · simp

theorem foldl_captureStep_ne_nil (raws : List String) :
    ∀ j, j ≠ [] → raws.foldl captureStep j ≠ [] := by
  induction raws with
  | nil => intro j h; simpa using h
  | cons r rs ih =>
    intro j h
    simp only [List.foldl_cons]
    apply ih
    unfold captureStep
    cases parseCookiePair r with
    | none => simpa using h
    | some nv => exact jarSet_ne_nil j nv.1 nv.2

theorem capturesCookie_foldl_ne_nil (raws : List String)
    (h : capturesCookie raws = true) : ∀ j, raws.foldl captureStep j ≠ [] := by
  induction raws with
  | nil => simp [capturesCookie] at h
  | cons r rs ih =>
    intro j
    simp only [List.foldl_cons]
    cases hp : parseCookiePair r with
    | some nv =>
      apply foldl_captureStep_ne_nil
      unfold captureStep
      rw [hp]
      exact jarSet_ne_nil j nv.1 nv.2
    | none =>
      have hrs : capturesCookie rs = true := by
        simp [capturesCookie, hp] at h
        simpa [capturesCookie] using h
      exact ih hrs _

theorem jarJoin_cons_length (p : String × String) (rest : List (String × String)) :
    0 < (jarJoin (p :: rest)).length := by
  cases rest with
  | nil =>
    show 0 < (p.1 ++ "=" ++ p.2).length
    rw [String.length_append, String.length_append]
    have h1 : (0 : Nat) < "=".length := by decide
    omega
  | cons q r2 =>
    show 0 < (p.1 ++ "=" ++ p.2 ++ "; " ++ jarJoin (q :: r2)).length
    rw [String.length_append, String.length_append, String.length_append,
      String.length_append]
    have h1 : (0 : Nat) < "=".length := by decide
    omega

theorem renderJar_ne_none (jar : List (String × String)) (h : jar ≠ []) :
    renderJar jar ≠ none := by
  cases jar with
  | nil => exact absurd rfl h
  | cons p rest =>
    unfold renderJar
    have hpos := jarJoin_cons_length p rest
    have hne : jarJoin (p :: rest) ≠ "" := by
      intro he
      rw [he] at hpos
      simp at hpos
    simp [hne]

/-- The shape every reachable state keeps: `cookies` is always the jar's
rendering, and (under the amended side condition) a non-null `lastLogin`
goes with a non-empty jar. -/
def JarInv (st : JarState) : Prop :=
  st.cookies = renderJar st.jar ∧ (st.lastLogin ≠ none → st.jar ≠ [])

theorem foldl_captureCookiesJ_inv (ds : List (List String)) :
    ∀ st : JarState, st.cookies = renderJar st.jar → st.jar ≠ [] →
      (ds.foldl captureCookiesJ st).cookies = renderJar (ds.foldl captureCookiesJ st).jar ∧
      (ds.foldl captureCookiesJ st).jar ≠ [] ∧
      (ds.foldl captureCookiesJ st).lastLogin = st.lastLogin := by
  induction ds with
  | nil => intro st h1 h2; exact ⟨h1, h2, rfl⟩
  | cons d ds ih =>
    intro st h1 h2
    simp only [List.foldl_cons]
    exact ih (captureCookiesJ st d) rfl (foldl_captureStep_ne_nil d st.jar h2)

theorem applyOp_inv (st : JarState) (op : SessionOp) (hgood : GoodOp op)
    (hinv : JarInv st) : JarInv (applyOp st op) := by
  cases op with
  | fetchOp raws =>
    refine ⟨rfl, fun hlog => ?_⟩
    exact foldl_captureStep_ne_nil raws st.jar (hinv.2 hlog)
  | invalidate => exact ⟨hinv.1, fun h => absurd rfl h⟩
  | loginOp loginRaws valid t discRaws =>
    have hjar1 : (captureCookiesJ { st with jar := [], cookies := none } loginRaws).jar ≠ [] :=
      capturesCookie_foldl_ne_nil loginRaws hgood []
    cases valid with
    | false =>
      simp only [applyOp, if_false, Bool.false_eq_true, ite_false]
      exact ⟨rfl, fun _ => hjar1⟩
    | true =>
      simp only [applyOp, if_true, ite_true]
      have hres := foldl_captureCookiesJ_inv discRaws
        { captureCookiesJ { st with jar := [], cookies := none } loginRaws with
          lastLogin := some t } rfl hjar1
      exact ⟨hres.1, fun _ => hres.2.1⟩

theorem runOps_inv (ops : List SessionOp) (hgood : ∀ op ∈ ops, GoodOp op) :
    JarInv (runOps ops) := by
  have : ∀ (l : List SessionOp) (st : JarState), (∀ op ∈ l, GoodOp op) → JarInv st →
      JarInv (l.foldl applyOp st) := by
    intro l
    induction l with
    | nil => intro st _ hinv; exact hinv
    | cons op rest ih =>
      intro st hg hinv
      exact ih _ (fun o ho => hg o (by simp [ho])) (applyOp_inv st op (hg op (by simp)) hinv)
  exact this ops _ hgood ⟨rfl, fun h => absurd rfl h⟩

/-- Claim C9 counterexample: a login whose response carries no
`Set-Cookie` header but whose JSON envelope validates leaves
`lastLogin` non-null with `cookies` null — the claimed invariant fails
in that reachable state. -/
theorem C9_invariant_cex :
    (runOps [.loginOp [] true 5 []]).lastLogin = some 5 ∧
    (runOps [.loginOp [] true 5 []]).cookies = none :=
  ⟨rfl, rfl⟩

/-- Claim C9 amended: in every state reachable by logins, cookie
captures and failure handlers, if additionally every login attempt's
response delivers at least one parseable cookie (`GoodOp`), then a
non-null `lastLogin` implies non-null `cookies`. -/
theorem C9_lastLogin_implies_cookies (ops : List SessionOp)
    (hgood : ∀ op ∈ ops, GoodOp op) (hlog : (runOps ops).lastLogin ≠ none) :
    (runOps ops).cookies ≠ none := by
  have hinv := runOps_inv ops hgood
  rw [hinv.1]
  exact renderJar_ne_none _ (hinv.2 hlog)

/-- Witness for C9 (amended): one login capturing a session cookie
yields a state with `lastLogin` set and `cookies` non-null. -/
theorem C9_lastLogin_implies_cookies_witness :
    (runOps [.loginOp ["JSESSIONID=abc; Path=/"] true 5 []]).cookies ≠ none :=
  C9_lastLogin_implies_cookies [.loginOp ["JSESSIONID=abc; Path=/"] true 5 []]
    (by
      intro op hop
      rw [List.mem_singleton.mp hop]
      show capturesCookie ["JSESSIONID=abc; Path=/"] = true
      decide)
    (by decide)
